import Mathlib

/-!
Shallow embedding of the node-selection core of the kubernetes-scheduler
repository (methods.go): metric fetching (`getMetrics`), concurrent ranking with a
two-slot cache (`getBestNodeByMetrics`, `bestNodeFromList`), ready-node listing
(`nodesAvailable`), and pod binding (`scheduler`).

Metric samples are `float64` in Go; the code only compares metrics and tests
equality against `-1` and never performs arithmetic on them, so they are modelled
as `Int`, which is faithful for every finite comparison the claims mention.
The goroutine fan-out is modelled by processing nodes in input order: the channel
collection order is nondeterministic in Go, and the subsequent sort makes it
irrelevant up to equal-metric ties, which no claim depends on.
-/

namespace KubeSched

/-- Batch-level errors surfaced by the ranking engine: the `emptyNodeList` and
`noNodeFound` error values of the Go code. -/
inductive SchedErr where
  | emptyNodeList
  | noNodeFound
deriving DecidableEq

/-- Per-node errors of the metric fetcher: transport/HTTP failures and the
`noDataFound` error for a parseable-but-empty response. -/
inductive MetricErr where
  | backendError (msg : String)
  | noDataFound
deriving DecidableEq

/-- Shape of the telemetry response consumed by `getMetrics`: the HTTP status code,
the status text, and the parsed JSON body `data[i].d[j]`. -/
structure MetricDataResponse where
  statusCode : Nat
  status : String
  data : List (List Int)
deriving DecidableEq

/-- Embedding of `getMetrics` (methods.go:32-67). The network call's outcome is the
input: a transport error or a response. A non-200 status is an error; otherwise the
first sample of the first series is returned, and `noDataFound` when the body has no
series or no samples. -/
def getMetrics (resp : Except String MetricDataResponse) : Except MetricErr Int :=
  match resp with
  | .error e => .error (.backendError e)
  | .ok r =>
    if r.statusCode ≠ 200 then
      .error (.backendError ("metric data response: " ++ r.status))
    else
      match r.data with
      | [] => .error .noDataFound
      | d :: _ =>
        match d with
        | [] => .error .noDataFound
        | v :: _ => .ok v

/-- The `Node` struct of the scheduler: node name, fetched metric, optional per-node
error. The Go zero value is `{name := "", metric := 0, err := none}`. -/
structure Node where
  name : String
  metric : Int
  err : Option MetricErr
deriving DecidableEq

instance : Inhabited Node := ⟨⟨"", 0, none⟩⟩

/-- Modelled from the spec: `NodeList`'s `sort.Interface` implementation is not under
src/; the spec states that selection sorts successful nodes by metric ascending, so
nodes are ordered by comparing metrics. -/
def NodeLE (a b : Node) : Prop := a.metric ≤ b.metric

instance : DecidableRel NodeLE :=
  fun a b => inferInstanceAs (Decidable (a.metric ≤ b.metric))

instance : IsTotal Node NodeLE := ⟨fun a b => Int.le_total a.metric b.metric⟩

instance : IsTrans Node NodeLE := ⟨fun _ _ _ h h2 => Int.le_trans h h2⟩

/-- Ascending-by-metric sort of a node list: the `sort.Sort(list)` call of
methods.go:139 (insertion sort is one sorted permutation; Go's sort is unstable, and
no claim depends on equal-metric tie order). -/
def sortNodeList (l : List Node) : List Node := List.insertionSort NodeLE l

/-- Embedding of `bestNodeFromList` (methods.go:138-149): sort ascending by metric,
return the first element when `sysdigMetricLower` is set, the last otherwise, and the
zero `Node` for an empty list. -/
def bestNodeFromList (sysdigMetricLower : Bool) (list : List Node) : Node :=
  let sorted := sortNodeList list
  if 0 < sorted.length then
    if sysdigMetricLower then sorted.headD default
    else sorted.getLastD default
  else default

/-- Ambient environment of a ranking pass: the telemetry backend's answer for each
short host name (abstracting the network call inside `getMetrics`), and the
`sysdigMetricLower` configuration flag. -/
structure Env where
  fetch : String → Except MetricErr Int
  sysdigMetricLower : Bool

/-- Short host form: `strings.Split(nodeName, ".")[0]` (methods.go:100-101), i.e. the
text of the node name preceding its first `.` (the whole name when it has none). -/
def shortHost (nodeName : String) : String := ⟨nodeName.data.takeWhile (· ≠ '.')⟩

/-- Modelled from the spec: the process-wide two-slot cache (`cachedNodes` and
`bestCachedNode`; their cache type is not under src/). `Data()` exposes a value and a
validity bit, modelled as `Option`; per the spec there is no expiry timer, so a slot
stays valid once set. -/
structure SchedState where
  cachedNodes : Option (List String)
  bestCachedNode : Option Node
deriving DecidableEq

/-- Observable outcome of `getBestNodeByMetrics`: the Go named return values
`(bestNodeFound, err)`, the cache state afterwards, and how many metric queries the
pass issued over the network. -/
structure RankResult where
  bestNodeFound : Node
  err : Option SchedErr
  state : SchedState
  queries : Nat
deriving DecidableEq

/-- The cache short-circuit test of methods.go:79-86: the cached node list is
present and `reflect.DeepEqual` to the input, and a best node is cached. -/
def cacheHit (st : SchedState) (nodes : List String) : Option Node :=
  match st.cachedNodes with
  | none => none
  | some cn => if cn = nodes then st.bestCachedNode else none

/-- Fan-out of methods.go:94-119: one `getMetrics` query per node, keyed by its short
host form; successes become `Node{name, metric}` (first component), failures become
`Node{name, err}` (second component, logged only). -/
def collectNodes (env : Env) (nodes : List String) : List Node × List Node :=
  (nodes.filterMap fun n =>
      match env.fetch (shortHost n) with
      | .ok v => some { name := n, metric := v, err := none }
      | .error _ => none,
   nodes.filterMap fun n =>
      match env.fetch (shortHost n) with
      | .ok _ => none
      | .error e => some { name := n, metric := 0, err := some e })

/-- Embedding of `getBestNodeByMetrics` (methods.go:70-136): empty-list check, cache
short-circuit, fan-out and selection, the `name == "" || metric == -1` failure test,
and the cache write on success. Each launched goroutine issues exactly one metric
query, so a computing pass issues `nodes.length` queries. -/
def getBestNodeByMetrics (env : Env) (st : SchedState) (nodes : List String) :
    RankResult :=
  if nodes.length = 0 then
    { bestNodeFound := default, err := some .emptyNodeList, state := st, queries := 0 }
  else
    match cacheHit st nodes with
    | some bn => { bestNodeFound := bn, err := none, state := st, queries := 0 }
    | none =>
      let nodeList := (collectNodes env nodes).1
      let bestNodeFound := bestNodeFromList env.sysdigMetricLower nodeList
      if bestNodeFound.name = "" ∨ bestNodeFound.metric = -1 then
        { bestNodeFound := bestNodeFound, err := some .noNodeFound, state := st,
          queries := nodes.length }
      else
        { bestNodeFound := bestNodeFound, err := none,
          state := { st with bestCachedNode := some bestNodeFound },
          queries := nodes.length }

/-- A node status condition: a type/status string pair. -/
structure NodeCondition where
  type : String
  status : String
deriving DecidableEq

/-- Node object returned by `kubeAPI.ListNodes`, flattened to the two paths the code
reads: `Metadata.Name` and `Status.Conditions`. -/
structure KubeNode where
  name : String
  conditions : List NodeCondition
deriving DecidableEq

/-- Outcome of the external `kubeAPI.ListNodes` call: the (possibly partial or empty)
node list it handed back together with an optional error. -/
structure ListOutcome where
  nodes : List KubeNode
  listErr : Option String
deriving DecidableEq

/-- Ready-name extraction loop of methods.go:160-166: for every condition with status
"True" and type "Ready", the node's name is appended (once per such condition). -/
def readyNamesOf (nodes : List KubeNode) : List String :=
  nodes.flatMap fun node =>
    node.conditions.filterMap fun c =>
      if c.status = "True" ∧ c.type = "Ready" then some node.name else none

/-- Observable outcome of `nodesAvailable`: the returned ready names, the cache state
afterwards, and whether `kubeAPI.ListNodes` was actually invoked. -/
structure ListResult where
  readyNodes : List String
  state : SchedState
  listed : Bool
deriving DecidableEq

/-- Embedding of `nodesAvailable` (methods.go:151-170): serve the cached node list
when present; otherwise list nodes, log any listing error (non-fatal, the loop still
runs over whatever was returned), extract ready names, and store them in the cache
unconditionally before returning. -/
def nodesAvailable (outcome : ListOutcome) (st : SchedState) : ListResult :=
  match st.cachedNodes with
  | some ns => { readyNodes := ns, state := st, listed := false }
  | none =>
    let readyNodes := readyNamesOf outcome.nodes
    { readyNodes := readyNodes,
      state := { st with cachedNodes := some readyNodes },
      listed := true }

/-- The `target` object of the binding payload (methods.go:178-183); the Go key
`namespace` is the field `ns` (`namespace` is a Lean keyword). -/
structure BindingTarget where
  kind : String
  apiVersion : String
  name : String
  ns : String
deriving DecidableEq

/-- The `metadata` object of the binding payload (methods.go:184-187). -/
structure BindingMetadata where
  name : String
  ns : String
deriving DecidableEq

/-- The JSON binding payload built by `scheduler` (methods.go:177-188). -/
structure BindingBody where
  target : BindingTarget
  metadata : BindingMetadata
deriving DecidableEq

/-- Call to `kubeAPI.CreateNamespacedBinding` (methods.go:194): the namespace
argument and the marshalled payload. -/
structure BindingCall where
  ns : String
  body : BindingBody
deriving DecidableEq

/-- Embedding of `scheduler` (methods.go:172-195): default the namespace to
"default" when empty, build the binding payload, and create the binding in that
namespace (marshalling of this fixed-shape map cannot fail). -/
def scheduler (podName nodeName nspace : String) : BindingCall :=
  let ns := if nspace = "" then "default" else nspace
  { ns := ns,
    body := { target := { kind := "Node", apiVersion := "v1", name := nodeName, ns := ns },
              metadata := { name := podName, ns := ns } } }


/-! ## Concrete fixtures used by counterexamples and witnesses -/

/-- Environment fixture: every host's telemetry query succeeds with metric 5;
higher-is-better mode. -/
def envOk5 : Env := ⟨fun _ => .ok 5, false⟩

/-- Environment fixture: host "n1" answers metric 10, every other host answers
metric 20; higher-is-better mode. -/
def envHiLo : Env := ⟨fun h => if h = "n1" then .ok 10 else .ok 20, false⟩

/-- Environment fixture: the backend answers HTTP 200 with body `data = [[-1]]`, so
`getMetrics` succeeds with the valid metric value -1 for every host; lower-is-better
mode. -/
def envNeg1 : Env := ⟨fun _ => getMetrics (.ok ⟨200, "OK", [[-1]]⟩), true⟩

/-- Environment fixture: the backend answers HTTP 200 with body `data = [[0]]`, so
`getMetrics` succeeds with metric 0 for every host; lower-is-better mode. -/
def envZero : Env := ⟨fun _ => getMetrics (.ok ⟨200, "OK", [[0]]⟩), true⟩

/-- Node fixture used by the cache claims. -/
def nodeA : Node := ⟨"nodeA.example", 5, none⟩

/-! ## Helper lemmas -/

/-- A telemetry fetch for node `n` succeeds (Go `err == nil` in the goroutine). -/
def fetchSucceeds (env : Env) (n : String) : Bool :=
  match env.fetch (shortHost n) with
  | .ok _ => true
  | .error _ => false

theorem fetchSucceeds_iff {env : Env} {n : String} :
    fetchSucceeds env n = true ↔ ∃ v, env.fetch (shortHost n) = .ok v := by
  unfold fetchSucceeds
  cases h : env.fetch (shortHost n) <;> simp

theorem sortNodeList_sorted (l : List Node) : List.Sorted NodeLE (sortNodeList l) :=
  List.sorted_insertionSort NodeLE l

theorem sortNodeList_perm (l : List Node) : (sortNodeList l).Perm l :=
  List.perm_insertionSort NodeLE l

theorem mem_sortNodeList {l : List Node} {x : Node} : x ∈ sortNodeList l ↔ x ∈ l :=
  List.mem_insertionSort NodeLE

theorem sortNodeList_ne_nil {l : List Node} (h : l ≠ []) : sortNodeList l ≠ [] := by
  intro hnil
  have hp := sortNodeList_perm l
  rw [hnil] at hp
  exact h hp.symm.eq_nil

theorem headD_mem : ∀ {l : List Node}, l ≠ [] → l.headD default ∈ l
  | [], h => absurd rfl h
  | a :: t, _ => List.mem_cons_self a t

theorem getLastD_mem : ∀ {l : List Node}, l ≠ [] → l.getLastD default ∈ l
  | [], h => absurd rfl h
  | _ :: _, _ => List.getLast_mem _

theorem sorted_headD_le {l : List Node} (hs : List.Sorted NodeLE l) :
    ∀ x ∈ l, (l.headD default).metric ≤ x.metric := by
  cases l with
  | nil => intro x hx; cases hx
  | cons a t =>
    intro x hx
    rcases List.mem_cons.mp hx with h | h
    · subst h; exact le_refl _
    · exact List.rel_of_sorted_cons hs x h

theorem sorted_le_getLastD : ∀ {l : List Node}, List.Sorted NodeLE l →
    ∀ x ∈ l, x.metric ≤ (l.getLastD default).metric
  | [], _, x, hx => absurd hx (List.not_mem_nil x)
  | [_], _, x, hx => by
    have := List.eq_of_mem_singleton hx
    subst this
    exact le_refl _
  | a :: b :: t, hs, x, hx => by
    have hlast : (a :: b :: t).getLastD default = (b :: t).getLastD default := rfl
    rcases List.mem_cons.mp hx with h | h
    · subst h
      have hmem : (b :: t).getLastD default ∈ b :: t := getLastD_mem (by simp)
      have hrel := List.rel_of_sorted_cons hs _ hmem
      rw [hlast]
      exact hrel
    · rw [hlast]
      exact sorted_le_getLastD hs.of_cons x h

theorem bestNodeFromList_mem {lower : Bool} {l : List Node} (h : l ≠ []) :
    bestNodeFromList lower l ∈ l := by
  have hne := sortNodeList_ne_nil h
  have hlen : 0 < (sortNodeList l).length := List.length_pos.mpr hne
  simp only [bestNodeFromList, if_pos hlen]
  cases lower
  · simpa using mem_sortNodeList.mp (getLastD_mem hne)
  · simpa using mem_sortNodeList.mp (headD_mem hne)

theorem bestNodeFromList_le {l : List Node} (h : l ≠ []) :
    ∀ x ∈ l, (bestNodeFromList true l).metric ≤ x.metric := by
  intro x hx
  have hne := sortNodeList_ne_nil h
  have hlen : 0 < (sortNodeList l).length := List.length_pos.mpr hne
  simp only [bestNodeFromList, if_pos hlen, if_true]
  exact sorted_headD_le (sortNodeList_sorted l) x (mem_sortNodeList.mpr hx)

theorem bestNodeFromList_ge {l : List Node} (h : l ≠ []) :
    ∀ x ∈ l, x.metric ≤ (bestNodeFromList false l).metric := by
  intro x hx
  have hne := sortNodeList_ne_nil h
  have hlen : 0 < (sortNodeList l).length := List.length_pos.mpr hne
  simp only [bestNodeFromList, if_pos hlen]
  simpa using sorted_le_getLastD (sortNodeList_sorted l) x (mem_sortNodeList.mpr hx)

theorem name_mem_of_mem_collect {env : Env} {nodes : List String} {m : Node}
    (hm : m ∈ (collectNodes env nodes).1) : m.name ∈ nodes := by
  simp only [collectNodes, List.mem_filterMap] at hm
  obtain ⟨n, hn, hfn⟩ := hm
  cases hfetch : env.fetch (shortHost n) with
  | ok v =>
    rw [hfetch] at hfn
    cases hfn
    exact hn
  | error e =>
    rw [hfetch] at hfn
    cases hfn

theorem mem_collect_of_fetch_ok {env : Env} {nodes : List String} {n : String} {v : Int}
    (hn : n ∈ nodes) (hfetch : env.fetch (shortHost n) = .ok v) :
    (⟨n, v, none⟩ : Node) ∈ (collectNodes env nodes).1 := by
  simp only [collectNodes, List.mem_filterMap]
  exact ⟨n, hn, by rw [hfetch]⟩

theorem collect_ne_nil {env : Env} {nodes : List String} {n : String}
    (hn : n ∈ nodes) (hok : fetchSucceeds env n = true) :
    (collectNodes env nodes).1 ≠ [] := by
  obtain ⟨v, hv⟩ := fetchSucceeds_iff.mp hok
  intro hnil
  have hmem := mem_collect_of_fetch_ok hn hv
  rw [hnil] at hmem
  cases hmem

theorem cacheHit_inv {st : SchedState} {nodes : List String} {bn : Node}
    (hhit : cacheHit st nodes = some bn) :
    st.cachedNodes = some nodes ∧ st.bestCachedNode = some bn := by
  cases hcn : st.cachedNodes with
  | none => simp [cacheHit, hcn] at hhit
  | some cn =>
    simp only [cacheHit, hcn] at hhit
    by_cases h : cn = nodes
    · rw [if_pos h] at hhit
      subst h
      exact ⟨rfl, hhit⟩
    · rw [if_neg h] at hhit
      cases hhit

theorem getBest_cacheHit (env : Env) (st : SchedState) (nodes : List String) (bn : Node)
    (hne : nodes ≠ []) (hhit : cacheHit st nodes = some bn) :
    getBestNodeByMetrics env st nodes = ⟨bn, none, st, 0⟩ := by
  have hlen : ¬nodes.length = 0 := by simpa using hne
  simp only [getBestNodeByMetrics, if_neg hlen, hhit]

theorem getBest_compute (env : Env) (st : SchedState) (nodes : List String)
    (hne : nodes ≠ []) (hmiss : cacheHit st nodes = none) :
    getBestNodeByMetrics env st nodes =
      if (bestNodeFromList env.sysdigMetricLower (collectNodes env nodes).1).name = "" ∨
          (bestNodeFromList env.sysdigMetricLower (collectNodes env nodes).1).metric = -1 then
        { bestNodeFound := bestNodeFromList env.sysdigMetricLower (collectNodes env nodes).1,
          err := some SchedErr.noNodeFound, state := st, queries := nodes.length }
      else
        { bestNodeFound := bestNodeFromList env.sysdigMetricLower (collectNodes env nodes).1,
          err := none,
          state := { st with
            bestCachedNode :=
              some (bestNodeFromList env.sysdigMetricLower (collectNodes env nodes).1) },
          queries := nodes.length } := by
  have hlen : ¬nodes.length = 0 := by simpa using hne
  simp only [getBestNodeByMetrics, if_neg hlen, hmiss]

theorem getBest_bestNodeFound_eq (env : Env) (st : SchedState) (nodes : List String)
    (hne : nodes ≠ []) (hmiss : cacheHit st nodes = none) :
    (getBestNodeByMetrics env st nodes).bestNodeFound =
      bestNodeFromList env.sysdigMetricLower (collectNodes env nodes).1 := by
  rw [getBest_compute env st nodes hne hmiss]
  split <;> rfl

theorem getBest_queries_eq (env : Env) (st : SchedState) (nodes : List String)
    (hne : nodes ≠ []) (hmiss : cacheHit st nodes = none) :
    (getBestNodeByMetrics env st nodes).queries = nodes.length := by
  rw [getBest_compute env st nodes hne hmiss]
  split <;> rfl

theorem getBest_preserves_cachedNodes (env : Env) (st : SchedState) (nodes : List String) :
    (getBestNodeByMetrics env st nodes).state.cachedNodes = st.cachedNodes := by
  unfold getBestNodeByMetrics
  split
  · rfl
  · split
    · rfl
    · simp only []
      split <;> rfl

theorem getBest_success_bestCachedNode (env : Env) (st : SchedState) (nodes : List String)
    (hok : (getBestNodeByMetrics env st nodes).err = none) :
    (getBestNodeByMetrics env st nodes).state.bestCachedNode =
      some (getBestNodeByMetrics env st nodes).bestNodeFound := by
  by_cases hnil : nodes = []
  · subst hnil
    simp [getBestNodeByMetrics] at hok
  · cases hhit : cacheHit st nodes with
    | some bn =>
      rw [getBest_cacheHit env st nodes bn hnil hhit]
      exact (cacheHit_inv hhit).2
    | none =>
      rw [getBest_compute env st nodes hnil hhit] at hok ⊢
      by_cases hcond :
          (bestNodeFromList env.sysdigMetricLower (collectNodes env nodes).1).name = "" ∨
          (bestNodeFromList env.sysdigMetricLower (collectNodes env nodes).1).metric = -1
      · rw [if_pos hcond] at hok
        simp at hok
      · rw [if_neg hcond]

/-! ## Claim theorems -/

/-- C5: for the empty input list, `getBestNodeByMetrics` fails with `EmptyNodeList`,
issues zero metric queries over the network, and leaves both cache slots unchanged
(the state is returned exactly as it was). -/
theorem C5_empty_list_fails_without_queries (env : Env) (st : SchedState) :
    getBestNodeByMetrics env st [] =
      { bestNodeFound := default, err := some SchedErr.emptyNodeList,
        state := st, queries := 0 } := rfl

/-- C9: frame property of a ranking pass — for every environment, state, input list
and outcome, `getBestNodeByMetrics` never writes the ready-node-list cache slot: the
`cachedNodes` slot afterwards equals the slot before (only `nodesAvailable` writes
it); in particular a successful pass over a list differing from the cached one does
not record the list it ranked. -/
theorem C9_ranking_preserves_cached_node_list (env : Env) (st : SchedState)
    (nodes : List String) :
    (getBestNodeByMetrics env st nodes).state.cachedNodes = st.cachedNodes :=
  getBest_preserves_cachedNodes env st nodes

/-- C10: for every pod name, node name and namespace, the binding payload built by
`scheduler` has a `target` with kind "Node", apiVersion "v1", the node name and the
namespace, and a `metadata` with the pod name and the same namespace; the binding is
created in that namespace, and an empty namespace defaults to "default" throughout. -/
theorem C10_binding_payload (podName nodeName nspace : String) :
    (scheduler podName nodeName nspace).body.target.kind = "Node" ∧
    (scheduler podName nodeName nspace).body.target.apiVersion = "v1" ∧
    (scheduler podName nodeName nspace).body.target.name = nodeName ∧
    (scheduler podName nodeName nspace).body.metadata.name = podName ∧
    (scheduler podName nodeName nspace).body.target.ns =
      (scheduler podName nodeName nspace).body.metadata.ns ∧
    (scheduler podName nodeName nspace).ns =
      (scheduler podName nodeName nspace).body.metadata.ns ∧
    (scheduler podName nodeName nspace).body.metadata.ns =
      (if nspace = "" then "default" else nspace) :=
  ⟨rfl, rfl, rfl, rfl, rfl, rfl, rfl⟩

/-- C3 counterexample: with the empty input list, a cached ready-node set equal to it
element-wise (`some []`) and a cached best node present, `getBestNodeByMetrics` fails
with `EmptyNodeList` instead of returning the cached best node: the empty-list check
precedes the cache check. -/
theorem C3_counterexample :
    (getBestNodeByMetrics envOk5 ⟨some [], some nodeA⟩ []).err =
      some SchedErr.emptyNodeList ∧
    (getBestNodeByMetrics envOk5 ⟨some [], some nodeA⟩ []).bestNodeFound ≠ nodeA := by
  decide

/-- C3 (amended): for every NON-empty input list, if the cached ready-node set equals
the input list element-wise and a cached best node exists, `getBestNodeByMetrics`
returns that cached best node immediately, issues zero metric queries, and leaves the
state unchanged. -/
theorem C3_cache_short_circuit (env : Env) (st : SchedState) (nodes : List String)
    (bn : Node) (hne : nodes ≠ []) (hcn : st.cachedNodes = some nodes)
    (hbn : st.bestCachedNode = some bn) :
    getBestNodeByMetrics env st nodes =
      { bestNodeFound := bn, err := none, state := st, queries := 0 } := by
  apply getBest_cacheHit env st nodes bn hne
  simp [cacheHit, hcn, hbn]

/-- C3 witness: the short-circuit evaluated on a concrete cached state. -/
theorem C3_witness :
    getBestNodeByMetrics envOk5 ⟨some ["nodeA.example"], some nodeA⟩ ["nodeA.example"] =
      { bestNodeFound := nodeA, err := none,
        state := ⟨some ["nodeA.example"], some nodeA⟩, queries := 0 } :=
  C3_cache_short_circuit envOk5 ⟨some ["nodeA.example"], some nodeA⟩ ["nodeA.example"]
    nodeA (by decide) rfl rfl

/-- C7 counterexample: a failing node listing (error "connection refused", empty
accumulated result) still populates the ready-node cache slot with `some []` on an
empty cache, contrary to "populated on the first successful list". -/
theorem C7_counterexample :
    (nodesAvailable ⟨[], some "connection refused"⟩ ⟨none, none⟩).listed = true ∧
    (nodesAvailable ⟨[], some "connection refused"⟩ ⟨none, none⟩).readyNodes = [] ∧
    (nodesAvailable ⟨[], some "connection refused"⟩ ⟨none, none⟩).state.cachedNodes =
      some [] := by
  decide

/-- C7 (amended): when no ready-node list is cached and the external listing fails,
`nodesAvailable` logs the error, returns the partial or empty result that was
accumulated, AND stores that result in the cache anyway: the ready-node cache slot is
populated by the first listing attempt whether or not the listing failed. -/
theorem C7_listing_failure_result_cached (outcome : ListOutcome) (st : SchedState)
    (hc : st.cachedNodes = none) (_hfail : outcome.listErr ≠ none) :
    nodesAvailable outcome st =
      { readyNodes := readyNamesOf outcome.nodes,
        state := { st with cachedNodes := some (readyNamesOf outcome.nodes) },
        listed := true } := by
  simp [nodesAvailable, hc]

/-- C7 witness: the amended behaviour evaluated on a concrete failing listing. -/
theorem C7_witness :
    nodesAvailable ⟨[], some "connection refused"⟩ ⟨none, none⟩ =
      { readyNodes := [], state := ⟨some [], none⟩, listed := true } :=
  C7_listing_failure_result_cached ⟨[], some "connection refused"⟩ ⟨none, none⟩
    rfl (by decide)

/-- C1 counterexample: a reachable stale-cache state pairs the cached ready-node list
with a best node computed from a DIFFERENT list (a listing caches ["nodeA.example"],
then a ranking pass over ["other.example"] succeeds and caches its winner). A later
call with ["nodeA.example"] — a non-empty list whose only node's metric fetch
succeeds — is served from the cache and returns a node that is not in the input
list. -/
theorem C1_counterexample :
    fetchSucceeds envOk5 "nodeA.example" = true ∧
    (getBestNodeByMetrics envOk5
        (getBestNodeByMetrics envOk5
          (nodesAvailable ⟨[⟨"nodeA.example", [⟨"Ready", "True"⟩]⟩], none⟩
            ⟨none, none⟩).state
          ["other.example"]).state
        ["nodeA.example"]).err = none ∧
    (getBestNodeByMetrics envOk5
        (getBestNodeByMetrics envOk5
          (nodesAvailable ⟨[⟨"nodeA.example", [⟨"Ready", "True"⟩]⟩], none⟩
            ⟨none, none⟩).state
          ["other.example"]).state
        ["nodeA.example"]).bestNodeFound.name ∉ (["nodeA.example"] : List String) := by
  decide

/-- C1 (amended): for every input list and state such that the pass is not served
from the cache (no cache short-circuit applies) and at least one node's metric fetch
succeeds, the `bestNodeFound` return of `getBestNodeByMetrics` is a node whose name
is in the input list and whose metric is extremal among all successfully fetched
nodes of that pass: ≤ every successful metric in lower-is-better mode, ≥ otherwise. -/
theorem C1_best_node_member_and_extremal (env : Env) (st : SchedState)
    (nodes : List String) (hmiss : cacheHit st nodes = none)
    (hsucc : ∃ n ∈ nodes, fetchSucceeds env n = true) :
    (getBestNodeByMetrics env st nodes).bestNodeFound.name ∈ nodes ∧
    ∀ m ∈ (collectNodes env nodes).1,
      (env.sysdigMetricLower = true →
        (getBestNodeByMetrics env st nodes).bestNodeFound.metric ≤ m.metric) ∧
      (env.sysdigMetricLower = false →
        m.metric ≤ (getBestNodeByMetrics env st nodes).bestNodeFound.metric) := by
  obtain ⟨n, hn, hok⟩ := hsucc
  have hne : nodes ≠ [] := by
    intro h
    subst h
    cases hn
  have hcol : (collectNodes env nodes).1 ≠ [] := collect_ne_nil hn hok
  rw [getBest_bestNodeFound_eq env st nodes hne hmiss]
  refine ⟨name_mem_of_mem_collect (bestNodeFromList_mem hcol), ?_⟩
  intro m hm
  constructor
  · intro hlow
    rw [hlow]
    exact bestNodeFromList_le hcol m hm
  · intro hhigh
    rw [hhigh]
    exact bestNodeFromList_ge hcol m hm

/-- C1 witness: the amended claim evaluated on two hosts with metrics 10 and 20 in
higher-is-better mode. -/
theorem C1_witness :
    (∃ n ∈ ["n1.example", "n2.example"], fetchSucceeds envHiLo n = true) ∧
    ((getBestNodeByMetrics envHiLo ⟨none, none⟩
        ["n1.example", "n2.example"]).bestNodeFound.name ∈ ["n1.example", "n2.example"] ∧
      ∀ m ∈ (collectNodes envHiLo ["n1.example", "n2.example"]).1,
        (envHiLo.sysdigMetricLower = true →
          (getBestNodeByMetrics envHiLo ⟨none, none⟩
              ["n1.example", "n2.example"]).bestNodeFound.metric ≤ m.metric) ∧
        (envHiLo.sysdigMetricLower = false →
          m.metric ≤ (getBestNodeByMetrics envHiLo ⟨none, none⟩
              ["n1.example", "n2.example"]).bestNodeFound.metric)) :=
  ⟨by decide,
    C1_best_node_member_and_extremal envHiLo ⟨none, none⟩ ["n1.example", "n2.example"]
      rfl (by decide)⟩

/-- C2 counterexample: the backend answers HTTP 200 with body `data = [[-1]]`, so the
single node's metric fetch succeeds with the finite valid metric -1 and that node is
selected; the call nevertheless fails with `NoNodeFound` — the no-metric sentinel is
NOT distinguishable from the valid metric value -1. -/
theorem C2_counterexample :
    fetchSucceeds envNeg1 "n1.example" = true ∧
    (getBestNodeByMetrics envNeg1 ⟨none, none⟩ ["n1.example"]).bestNodeFound =
      ⟨"n1.example", -1, none⟩ ∧
    (getBestNodeByMetrics envNeg1 ⟨none, none⟩ ["n1.example"]).err =
      some SchedErr.noNodeFound := by
  decide

/-- C2 (amended): in a computing pass (non-empty list, no cache short-circuit),
`getBestNodeByMetrics` fails with `NoNodeFound` exactly when the selected node's name
is empty (no successful node) or its metric equals -1. The sentinel test conflates
the valid metric -1 with "no metric set": a selected metric of 0 or any other finite
value does not fail, but exactly -1 does. -/
theorem C2_noNodeFound_iff_sentinel (env : Env) (st : SchedState) (nodes : List String)
    (hne : nodes ≠ []) (hmiss : cacheHit st nodes = none) :
    ((getBestNodeByMetrics env st nodes).err = some SchedErr.noNodeFound ↔
      (getBestNodeByMetrics env st nodes).bestNodeFound.name = "" ∨
      (getBestNodeByMetrics env st nodes).bestNodeFound.metric = -1) := by
  rw [getBest_compute env st nodes hne hmiss]
  split
  case isTrue h => simpa using h
  case isFalse h => simpa using h

/-- C2 witness: the amended equivalence evaluated where the single node succeeds with
metric 0 (valid, distinguishable from the sentinel) and the call does not fail. -/
theorem C2_witness :
    ((getBestNodeByMetrics envZero ⟨none, none⟩ ["n1.example"]).err =
        some SchedErr.noNodeFound ↔
      (getBestNodeByMetrics envZero ⟨none, none⟩ ["n1.example"]).bestNodeFound.name = "" ∨
      (getBestNodeByMetrics envZero ⟨none, none⟩ ["n1.example"]).bestNodeFound.metric = -1) :=
  C2_noNodeFound_iff_sentinel envZero ⟨none, none⟩ ["n1.example"] (by decide) rfl

/-- C4 counterexample: from the empty-cache state, two consecutive successful calls
with the identical list ["nodeA"] issue one metric query EACH — two in total, not
one: the first pass caches its best node but never writes the ready-node-list slot,
so the second call misses the cache and queries again. -/
theorem C4_counterexample :
    (getBestNodeByMetrics envOk5 ⟨none, none⟩ ["nodeA"]).err = none ∧
    (getBestNodeByMetrics envOk5 ⟨none, none⟩ ["nodeA"]).queries = 1 ∧
    (getBestNodeByMetrics envOk5
        (getBestNodeByMetrics envOk5 ⟨none, none⟩ ["nodeA"]).state ["nodeA"]).queries =
      1 := by
  decide

/-- C4 (amended): two consecutive calls with the identical non-empty list issue
metric queries exactly once in total PROVIDED the cached ready-node list already
equals the input list and no best node is cached: a successful first call then
queries each node exactly once, and the second call is served from the cache with
zero queries, returning the same node and state. Without that proviso the first pass
does not record the list it ranked, and the second call queries again. -/
theorem C4_cache_idempotence (env : Env) (st : SchedState) (nodes : List String)
    (hne : nodes ≠ []) (hcn : st.cachedNodes = some nodes)
    (hbn : st.bestCachedNode = none)
    (hok : (getBestNodeByMetrics env st nodes).err = none) :
    (getBestNodeByMetrics env st nodes).queries = nodes.length ∧
    getBestNodeByMetrics env (getBestNodeByMetrics env st nodes).state nodes =
      { bestNodeFound := (getBestNodeByMetrics env st nodes).bestNodeFound,
        err := none, state := (getBestNodeByMetrics env st nodes).state,
        queries := 0 } := by
  have hmiss : cacheHit st nodes = none := by simp [cacheHit, hcn, hbn]
  refine ⟨getBest_queries_eq env st nodes hne hmiss, ?_⟩
  have hcn2 : (getBestNodeByMetrics env st nodes).state.cachedNodes = some nodes := by
    rw [getBest_preserves_cachedNodes]
    exact hcn
  have hbn2 := getBest_success_bestCachedNode env st nodes hok
  have hhit2 : cacheHit (getBestNodeByMetrics env st nodes).state nodes =
      some (getBestNodeByMetrics env st nodes).bestNodeFound := by
    simp [cacheHit, hcn2, hbn2]
  exact getBest_cacheHit env _ nodes _ hne hhit2

/-- C4 witness: the amended claim evaluated where the cached list already equals the
input ["nodeA"] and no best node is cached: the first call issues one query and the
second is served from the cache with zero queries. -/
theorem C4_witness :
    (getBestNodeByMetrics envOk5 ⟨some ["nodeA"], none⟩ ["nodeA"]).queries =
      (["nodeA"] : List String).length ∧
    getBestNodeByMetrics envOk5
        (getBestNodeByMetrics envOk5 ⟨some ["nodeA"], none⟩ ["nodeA"]).state ["nodeA"] =
      { bestNodeFound :=
          (getBestNodeByMetrics envOk5 ⟨some ["nodeA"], none⟩ ["nodeA"]).bestNodeFound,
        err := none,
        state := (getBestNodeByMetrics envOk5 ⟨some ["nodeA"], none⟩ ["nodeA"]).state,
        queries := 0 } :=
  C4_cache_idempotence envOk5 ⟨some ["nodeA"], none⟩ ["nodeA"]
    (by decide) rfl rfl (by decide)

/-- C6: the best-node cache slot is replaced with the pass's result exactly when the
pass succeeds — after any call to `getBestNodeByMetrics`, the `bestCachedNode` slot
equals `some` of the returned node if the pass returned no error, and is unchanged
from before if the pass returned an error (EmptyNodeList or NoNodeFound). -/
theorem C6_best_cache_written_iff_success (env : Env) (st : SchedState)
    (nodes : List String) :
    (getBestNodeByMetrics env st nodes).state.bestCachedNode =
      (if (getBestNodeByMetrics env st nodes).err = none then
        some (getBestNodeByMetrics env st nodes).bestNodeFound
      else st.bestCachedNode) := by
  by_cases hok : (getBestNodeByMetrics env st nodes).err = none
  · rw [if_pos hok]
    exact getBest_success_bestCachedNode env st nodes hok
  · rw [if_neg hok]
    by_cases hnil : nodes = []
    · subst hnil
      rfl
    · cases hhit : cacheHit st nodes with
      | some bn =>
        rw [getBest_cacheHit env st nodes bn hnil hhit] at hok
        exact absurd rfl hok
      | none =>
        rw [getBest_compute env st nodes hnil hhit] at hok ⊢
        by_cases hcond :
            (bestNodeFromList env.sysdigMetricLower (collectNodes env nodes).1).name = "" ∨
            (bestNodeFromList env.sysdigMetricLower (collectNodes env nodes).1).metric = -1
        · rw [if_pos hcond]
        · rw [if_neg hcond] at hok
          exact absurd rfl hok
